import Mathlib

/-!
Shallow embedding of `src/bot.py` (a Telegram "trading signal" bot) and
verification of its specification claims.

Modelling conventions:
* Times are local Africa/Lagos instants measured in whole seconds on an
  integer timeline (ℤ); `timedelta(minutes=5)` becomes `300`, etc.
  `datetime.hour` becomes `(t / 3600) % 24` with floor division/mod
  (`Int.ediv` / `Int.emod`), matching Python's `//` and `%`.
* The four module-level dicts become association-list maps bundled in a
  `BotState` record; handlers are pure functions `BotState → … → BotState × replies`.
* Randomness (`random.random`, `random.uniform`, `random.choice`,
  `random.randint`) is passed in explicitly as a `Rand` record of draws;
  `random.uniform a b` is modelled as `a + (b - a) * u` with `u ∈ [0, 1]` in ℚ.
* `await msg.reply_text(...)` becomes appending a `Reply` value to the output
  list; message formatting (`build_signal_message`, `strftime`) is carried in
  the `Reply.signal` constructor's fields.
-/

namespace Bot

/-- Association-list map with first-match lookup; `insert` shadows. -/
abbrev Map (K V : Type) := List (K × V)

def Map.get? {K V : Type} [DecidableEq K] : Map K V → K → Option V
  | [], _ => none
  | (k, v) :: rest, k' => if k = k' then some v else Map.get? rest k'

def Map.insert {K V : Type} (m : Map K V) (k : K) (v : V) : Map K V :=
  (k, v) :: m

-- ---------- CONFIG (src/bot.py lines 22-39) ----------

def OPEN_HOUR : ℤ := 6
def CLOSE_HOUR : ℤ := 18
/-- Per-user cooldown `COOLDOWN = timedelta(minutes=5)`, in seconds. -/
def COOLDOWN : ℤ := 300
def CHAT_SIGNAL_WINDOW_SEC : ℤ := 30
def CHAT_SIGNAL_LIMIT : ℕ := 6
def CHAT_THROTTLE_DURATION : ℤ := 60

-- ---------- STATE (src/bot.py lines 41-46) ----------

structure BotState where
  last_signal_by_user : Map ℤ ℤ
  last_signal_type_by_chat : Map ℤ String
  chat_signal_timestamps : Map ℤ (List ℤ)
  chat_throttle_until : Map ℤ ℤ
  deriving DecidableEq

def initialState : BotState :=
  { last_signal_by_user := []
    last_signal_type_by_chat := []
    chat_signal_timestamps := []
    chat_throttle_until := [] }

-- ---------- Telegram data (the fields bot.py reads) ----------

structure User where
  id : ℤ
  is_bot : Bool
  deriving DecidableEq

structure Chat where
  id : ℤ
  deriving DecidableEq

structure Message where
  text : Option (List Char)
  from_user : Option User
  chat : Chat
  deriving DecidableEq

structure Update where
  message : Option Message
  deriving DecidableEq

/-- Explicit random draws consumed by one `text_handler` run. -/
structure Rand where
  /-- Draw for `random.random()` in `choose_signal_type` (the 0.6 coin). -/
  typeCoin : ℚ
  /-- Draw for `random.choice(["BUY", "SELL"])` when the chat has no previous type. -/
  choiceA : Bool
  /-- Draw for `random.choice(["BUY", "SELL"])` in the 40% branch. -/
  choiceB : Bool
  /-- Draw for `random.random()` in `generate_odds` (the 0.20 coin). -/
  oddsCoin : ℚ
  /-- the `random.uniform` draw in `generate_odds`, scaled to `[0, 1]`. -/
  oddsU : ℚ
  /-- Draw for `random.random()` in `human_like_time`. -/
  timeCoin : ℚ
  /-- index selecting among the possible offsets in `human_like_time`. -/
  timePick : ℕ

inductive Reply where
  /-- Reply sent by `msg.reply_text(OUTSIDE_WINDOW_MSG)` (line 167). -/
  | outsideWindow : Reply
  /-- Reply sent by `msg.reply_text(COOLDOWN_MSG)` (line 173). -/
  | cooldown : Reply
  /-- Reply sent by `msg.reply_text(build_signal_message(...))` (line 183). -/
  | signal (signal_type : String) (odds : ℚ) (signal_time : ℤ) : Reply
  deriving DecidableEq

-- ---------- Helpers (src/bot.py lines 55-132) ----------

/-- Hour field `datetime.hour` of a Lagos-local instant measured in seconds. -/
def hourOf (t : ℤ) : ℤ := (Int.ediv t 3600).emod 24

/-- Window check `in_signal_window` (line 59): `OPEN_HOUR <= now.hour < CLOSE_HOUR`. -/
def in_signal_window (now : ℤ) : Bool :=
  decide (OPEN_HOUR ≤ hourOf now) && decide (hourOf now < CLOSE_HOUR)

/-- Model of `random.uniform a b` given a draw `u ∈ [0, 1]`. -/
def uniform (a b u : ℚ) : ℚ := a + (b - a) * u

/-- Python `round(value, 2)`: round to the nearest multiple of 1/100.
(Python uses banker's tie-breaking on floats; ties do not affect any
claim here, so round-half-up is used.) -/
def round2 (q : ℚ) : ℚ := ((round (100 * q) : ℤ) : ℚ) / 100

/-- Odds generator `generate_odds` (lines 66-75). -/
def generate_odds (coin u : ℚ) : ℚ :=
  if coin < 20 / 100 then
    round2 (uniform (220 / 100) (230 / 100) u)
  else
    round2 (uniform (180 / 100) (215 / 100) u)

/-- Signal-type chooser `choose_signal_type` (lines 77-91): returns the chosen type and the
updated `last_signal_type_by_chat` map. `if not last` is Python truthiness:
true when the key is absent or maps to the empty string. -/
def choose_signal_type (m : Map ℤ String) (chat_id : ℤ) (coin : ℚ)
    (cA cB : Bool) : String × Map ℤ String :=
  let last := (Map.get? m chat_id).getD ""
  let choice :=
    if last = "" then
      (if cA then "BUY" else "SELL")
    else if coin < 60 / 100 then
      (if last = "BUY" then "SELL" else "BUY")
    else
      (if cB then "BUY" else "SELL")
  (choice, Map.insert m chat_id choice)

/-- Time fuzzer `human_like_time` (lines 93-107): `now` plus a random offset in minutes. -/
def human_like_time (now : ℤ) (r : ℚ) (pick : ℕ) : ℤ :=
  let offset : ℤ :=
    if r < 60 / 100 then
      ([0, 0, 1, 2, 3].getD (pick % 5) 0 : ℤ)
    else if r < 90 / 100 then
      4 + (pick % 7 : ℕ)
    else
      5 + (pick % 16 : ℕ)
  now + offset * 60

/-- Throttle check `is_chat_throttled` (lines 118-120): `bool(until and until > now)`;
a present `datetime` is always truthy. -/
def is_chat_throttled (thr : Map ℤ ℤ) (chat_id now : ℤ) : Bool :=
  match Map.get? thr chat_id with
  | none => false
  | some u => decide (u > now)

/-- Activity recorder `register_chat_signal` (lines 122-132): append `now` to the chat's list,
prune to the sliding window, and set the throttle when over the limit.
Returns the updated `(chat_signal_timestamps, chat_throttle_until)`. -/
def register_chat_signal (ts : Map ℤ (List ℤ)) (thr : Map ℤ ℤ)
    (chat_id now : ℤ) : Map ℤ (List ℤ) × Map ℤ ℤ :=
  let lst := (Map.get? ts chat_id).getD [] ++ [now]
  let cutoff := now - CHAT_SIGNAL_WINDOW_SEC
  let pruned := lst.filter (fun t => decide (t > cutoff))
  let ts' := Map.insert ts chat_id pruned
  if pruned.length > CHAT_SIGNAL_LIMIT then
    (ts', Map.insert thr chat_id (now + CHAT_THROTTLE_DURATION))
  else
    (ts', thr)

-- ---------- Keyword detection ----------

/-- Keyword `"signal"` as a character list. -/
def sigWord : List Char := ['s', 'i', 'g', 'n', 'a', 'l']

/-- Python `needle in haystack` substring containment. -/
def containsSub (p : List Char) : List Char → Bool
  | [] => p.isPrefixOf []
  | c :: rest => p.isPrefixOf (c :: rest) || containsSub p rest

/-- Lowercasing, modelling `str.lower()` on the characters bot.py compares. -/
def lowerStr (s : List Char) : List Char := s.map Char.toLower

/-- A regex word character (`\w`): letters, digits, underscore. -/
def isWordChar (c : Char) : Bool := c.isAlphanum || c = '_'

/-- Search `re.search(r"(?i)\bsignal\b", s)` scanning with the previous character
tracked for the left word boundary. -/
def signalWordFrom (prev : Option Char) : List Char → Bool
  | [] => false
  | c :: rest =>
    (sigWord.isPrefixOf (lowerStr (c :: rest))
      && (match prev with
          | none => true
          | some p => ! isWordChar p)
      && (match (c :: rest).drop 6 with
          | [] => true
          | d :: _ => ! isWordChar d))
    || signalWordFrom (some c) rest

/-- The `filters.Regex(r"(?i)\bsignal\b")` test from `main` (line 205). -/
def containsSignalWord (s : List Char) : Bool := signalWordFrom none s

-- ---------- text_handler (src/bot.py lines 139-187) ----------

/-- The signal-sending tail of `text_handler` (lines 176-187). -/
def sendSignal (st : BotState) (user_id chat_id now : ℤ) (rnd : Rand) :
    BotState × List Reply :=
  let cst := choose_signal_type st.last_signal_type_by_chat chat_id
      rnd.typeCoin rnd.choiceA rnd.choiceB
  let odds := generate_odds rnd.oddsCoin rnd.oddsU
  let signal_time := human_like_time now rnd.timeCoin rnd.timePick
  let rcs := register_chat_signal st.chat_signal_timestamps
      st.chat_throttle_until chat_id now
  ({ st with
      last_signal_type_by_chat := cst.2
      last_signal_by_user := Map.insert st.last_signal_by_user user_id now
      chat_signal_timestamps := rcs.1
      chat_throttle_until := rcs.2 },
   [Reply.signal cst.1 odds signal_time])

/-- Handler `text_handler` (lines 139-187) as a pure state transformer, returning the
new state and the list of replies sent. -/
def text_handler (st : BotState) (upd : Update) (now : ℤ) (rnd : Rand) :
    BotState × List Reply :=
  match upd.message with
  | none => (st, [])
  | some msg =>
    match msg.text with
    | none => (st, [])
    | some text =>
      match msg.from_user with
      | none => (st, [])
      | some u =>
        if u.is_bot then (st, [])
        else
          let user_id := u.id
          let chat_id := msg.chat.id
          if ! containsSub sigWord (lowerStr text) then (st, [])
          else if is_chat_throttled st.chat_throttle_until chat_id now then
            (st, [])
          else if ! in_signal_window now then
            (st, [Reply.outsideWindow])
          else
            match Map.get? st.last_signal_by_user user_id with
            | some last_used =>
              if now < last_used + COOLDOWN then (st, [Reply.cooldown])
              else sendSignal st user_id chat_id now rnd
            | none => sendSignal st user_id chat_id now rnd

-- ---------- main's startup check and dispatch (lines 191-210) ----------

/-- Truthiness test `not token` — true for a missing or empty token. -/
def tokenMissing : Option String → Bool
  | none => true
  | some t => t = ""

/-- The `RuntimeError` message raised in `main` (lines 194-196). -/
def tokenErrMsg : String :=
  "Environment variable BOT_TOKEN not set. Set it to your BotFather token."

/-- The startup credential check in `main` (lines 192-196): raises
`RuntimeError` iff the `BOT_TOKEN` environment variable is unset or empty. -/
def main_check (token : Option String) : Except String Unit :=
  if tokenMissing token then
    Except.error tokenErrMsg
  else
    Except.ok ()

/-- Message dispatch as wired in `main` (lines 203-206): `text_handler` runs
only on text messages matching `(?i)\bsignal\b`. -/
def dispatch (st : BotState) (upd : Update) (now : ℤ) (rnd : Rand) :
    BotState × List Reply :=
  match upd.message with
  | none => (st, [])
  | some msg =>
    match msg.text with
    | none => (st, [])
    | some text =>
      if containsSignalWord text then text_handler st upd now rnd
      else (st, [])

end Bot

-- ---------- Helper lemmas ----------

namespace Bot

theorem Map.get?_insert {K V : Type} [DecidableEq K]
    (m : Map K V) (k k' : K) (v : V) :
    Map.get? (Map.insert m k v) k' = if k = k' then some v else Map.get? m k' :=
  rfl

/-- Rounding to hundredths stays inside an interval whose endpoints are
multiples of 1/100. -/
theorem round2_bounds {q : ℚ} (m n : ℤ) (h1 : (m : ℚ) / 100 ≤ q)
    (h2 : q ≤ (n : ℚ) / 100) :
    (m : ℚ) / 100 ≤ round2 q ∧ round2 q ≤ (n : ℚ) / 100 := by
  have hm : round ((m : ℚ)) = m := round_intCast m
  have hn : round ((n : ℚ)) = n := round_intCast n
  have mono : ∀ x y : ℚ, x ≤ y → round x ≤ round y := by
    intro x y hxy
    rw [round_eq, round_eq]
    exact Int.floor_mono (by linarith)
  have hq1 : (m : ℚ) ≤ 100 * q := by
    have := mul_le_mul_of_nonneg_left h1 (by norm_num : (0 : ℚ) ≤ 100)
    calc (m : ℚ) = 100 * ((m : ℚ) / 100) := by ring
    _ ≤ 100 * q := this
  have hq2 : 100 * q ≤ (n : ℚ) := by
    have := mul_le_mul_of_nonneg_left h2 (by norm_num : (0 : ℚ) ≤ 100)
    calc 100 * q ≤ 100 * ((n : ℚ) / 100) := this
    _ = (n : ℚ) := by ring
  have l1 : m ≤ round (100 * q) := by
    have := mono (m : ℚ) (100 * q) hq1
    rwa [hm] at this
  have l2 : round (100 * q) ≤ n := by
    have := mono (100 * q) (n : ℚ) hq2
    rwa [hn] at this
  constructor
  · unfold round2
    have : (m : ℚ) ≤ (round (100 * q) : ℚ) := by exact_mod_cast l1
    linarith
  · unfold round2
    have : ((round (100 * q) : ℤ) : ℚ) ≤ (n : ℚ) := by exact_mod_cast l2
    linarith

/-- Lemma: `register_chat_signal` leaves only in-window timestamps for the chat and
sets the throttle exactly when the pruned list exceeds the limit. -/
theorem register_chat_signal_spec (ts : Map ℤ (List ℤ)) (thr : Map ℤ ℤ)
    (chat now : ℤ) :
    (∀ t ∈ (Map.get? (register_chat_signal ts thr chat now).1 chat).getD [],
      now - CHAT_SIGNAL_WINDOW_SEC < t)
    ∧ (((Map.get? (register_chat_signal ts thr chat now).1 chat).getD []).length
          > CHAT_SIGNAL_LIMIT →
        Map.get? (register_chat_signal ts thr chat now).2 chat
          = some (now + CHAT_THROTTLE_DURATION)) := by
  simp only [register_chat_signal]
  split
  · refine ⟨?_, ?_⟩
    · intro t ht
      simp only [Map.get?_insert, if_pos rfl, Option.getD_some] at ht
      have := List.of_mem_filter ht
      simpa using this
    · intro _
      simp [Map.get?_insert]
  · rename_i hlen
    refine ⟨?_, ?_⟩
    · intro t ht
      simp only [Map.get?_insert, if_pos rfl, Option.getD_some] at ht
      have := List.of_mem_filter ht
      simpa using this
    · intro hcon
      exfalso
      apply hlen
      simpa [Map.get?_insert] using hcon

end Bot

namespace Bot

/-- Exhaustive shape analysis of `text_handler`: it ignores the message, sends
the outside-window reply, sends the cooldown reply, or runs the signal path
with all guard conditions established. -/
theorem handler_shape (st : BotState) (upd : Update) (now : ℤ) (rnd : Rand) :
    text_handler st upd now rnd = (st, [])
    ∨ (text_handler st upd now rnd = (st, [Reply.outsideWindow])
        ∧ in_signal_window now = false)
    ∨ text_handler st upd now rnd = (st, [Reply.cooldown])
    ∨ ∃ msg u text, upd.message = some msg ∧ msg.text = some text
        ∧ msg.from_user = some u ∧ u.is_bot = false
        ∧ containsSub sigWord (lowerStr text) = true
        ∧ is_chat_throttled st.chat_throttle_until msg.chat.id now = false
        ∧ in_signal_window now = true
        ∧ text_handler st upd now rnd = sendSignal st u.id msg.chat.id now rnd := by
  obtain ⟨msg?⟩ := upd
  cases msg? with
  | none => left; rfl
  | some msg =>
    obtain ⟨text?, fu?, chat⟩ := msg
    cases text? with
    | none => left; rfl
    | some text =>
      cases fu? with
      | none => left; rfl
      | some u =>
        by_cases hb : u.is_bot = true
        · left; simp [text_handler, hb]
        · by_cases hc : containsSub sigWord (lowerStr text) = true
          · by_cases hth :
                is_chat_throttled st.chat_throttle_until chat.id now = true
            · left; simp [text_handler, hb, hc, hth]
            · by_cases hw : in_signal_window now = true
              · cases hlast : Map.get? st.last_signal_by_user u.id with
                | none =>
                  right; right; right
                  refine ⟨⟨some text, some u, chat⟩, u, text, rfl, rfl, rfl,
                    by simpa using hb, hc, by simpa using hth, hw, ?_⟩
                  simp [text_handler, hb, hc, hth, hw, hlast]
                | some t =>
                  by_cases hcd : now < t + COOLDOWN
                  · right; right; left
                    simp [text_handler, hb, hc, hth, hw, hlast, hcd]
                  · right; right; right
                    refine ⟨⟨some text, some u, chat⟩, u, text, rfl, rfl, rfl,
                      by simpa using hb, hc, by simpa using hth, hw, ?_⟩
                    simp [text_handler, hb, hc, hth, hw, hlast, hcd]
              · right; left
                refine ⟨by simp [text_handler, hb, hc, hth, hw], by simpa using hw⟩
          · left; simp [text_handler, hb, hc]

end Bot

namespace Bot

/-- The signal path writes only the keys of the acting user and chat. -/
theorem sendSignal_fields (st : BotState) (uid cid now : ℤ) (rnd : Rand) :
    (sendSignal st uid cid now rnd).1.last_signal_by_user
        = Map.insert st.last_signal_by_user uid now
    ∧ (sendSignal st uid cid now rnd).1.last_signal_type_by_chat
        = (choose_signal_type st.last_signal_type_by_chat cid
            rnd.typeCoin rnd.choiceA rnd.choiceB).2
    ∧ (sendSignal st uid cid now rnd).1.chat_signal_timestamps
        = (register_chat_signal st.chat_signal_timestamps
            st.chat_throttle_until cid now).1
    ∧ (sendSignal st uid cid now rnd).1.chat_throttle_until
        = (register_chat_signal st.chat_signal_timestamps
            st.chat_throttle_until cid now).2
    ∧ (sendSignal st uid cid now rnd).2
        = [Reply.signal
            (choose_signal_type st.last_signal_type_by_chat cid
              rnd.typeCoin rnd.choiceA rnd.choiceB).1
            (generate_odds rnd.oddsCoin rnd.oddsU)
            (human_like_time now rnd.timeCoin rnd.timePick)] :=
  ⟨rfl, rfl, rfl, rfl, rfl⟩

theorem register_chat_signal_frame (ts : Map ℤ (List ℤ)) (thr : Map ℤ ℤ)
    (chat now c : ℤ) (h : c ≠ chat) :
    Map.get? (register_chat_signal ts thr chat now).1 c = Map.get? ts c
    ∧ Map.get? (register_chat_signal ts thr chat now).2 c = Map.get? thr c := by
  have hne : ¬(chat = c) := fun hh => h hh.symm
  simp only [register_chat_signal]
  split <;> simp [Map.get?_insert, hne]

theorem choose_signal_type_frame (m : Map ℤ String) (chat : ℤ) (coin : ℚ)
    (cA cB : Bool) (c : ℤ) (h : c ≠ chat) :
    Map.get? (choose_signal_type m chat coin cA cB).2 c = Map.get? m c := by
  have hne : ¬(chat = c) := fun hh => h hh.symm
  simp [choose_signal_type, Map.get?_insert, hne]

-- ---------- Concrete fixtures used by witnesses and counterexamples ----------

def rndW : Rand := ⟨0, true, true, 0, 0, 0, 0⟩
def msgW : Message := ⟨some sigWord, some ⟨1, false⟩, ⟨10⟩⟩
def updW : Update := ⟨some msgW⟩
def stC2 : BotState := { initialState with last_signal_by_user := [(1, 25200)] }
def stC3 : BotState := { initialState with chat_throttle_until := [(10, 25300)] }
def tsC3 : Map ℤ (List ℤ) := [(10, [100, 99, 98, 97, 96, 95])]
def stC4 : BotState := { initialState with last_signal_by_user := [(2, 0)] }
def msgNoKey : Message := ⟨some ['h', 'i'], some ⟨1, false⟩, ⟨10⟩⟩
def updNoKey : Update := ⟨some msgNoKey⟩

-- ---------- Claim theorems ----------

/-- C1: for a trigger message in an unthrottled chat, a signal is generated
only when the Lagos hour `h` of `now` satisfies `6 ≤ h < 18`; outside that
range the handler replies with the outside-window message, generates no
signal, and leaves every state map unchanged. -/
theorem C1_time_window (st : BotState) (upd : Update) (now : ℤ) (rnd : Rand) :
    (∀ stype odds tm,
      Reply.signal stype odds tm ∈ (text_handler st upd now rnd).2 →
      OPEN_HOUR ≤ hourOf now ∧ hourOf now < CLOSE_HOUR)
    ∧ (∀ msg u text, upd.message = some msg → msg.text = some text →
        msg.from_user = some u → u.is_bot = false →
        containsSub sigWord (lowerStr text) = true →
        is_chat_throttled st.chat_throttle_until msg.chat.id now = false →
        in_signal_window now = false →
        text_handler st upd now rnd = (st, [Reply.outsideWindow])) := by
  constructor
  · intro stype odds tm hmem
    rcases handler_shape st upd now rnd with hs | ⟨hs, _⟩ | hs |
        ⟨msg, u, text, _, _, _, _, _, _, hw, hs⟩
    · rw [hs] at hmem; simp at hmem
    · rw [hs] at hmem; simp at hmem
    · rw [hs] at hmem; simp at hmem
    · simpa [in_signal_window] using hw
  · intro msg u text h1 h2 h3 h4 h5 h6 h7
    simp [text_handler, h1, h2, h3, h4, h5, h6, h7]

theorem C1_time_window_witness :
    text_handler initialState updW 10800 rndW
      = (initialState, [Reply.outsideWindow]) :=
  (C1_time_window initialState updW 10800 rndW).2 msgW ⟨1, false⟩ sigWord
    rfl rfl rfl rfl (by decide) rfl (by decide)

/-- C2: inside the window with the chat unthrottled, a user whose last signal
was less than five minutes ago gets the cooldown reply, no signal, and no
state change; the per-user map is written only on the path that actually
sends a signal, and there it records `now`. -/
theorem C2_user_cooldown (st : BotState) (upd : Update) (now : ℤ) (rnd : Rand) :
    (∀ msg u text t, upd.message = some msg → msg.text = some text →
        msg.from_user = some u → u.is_bot = false →
        containsSub sigWord (lowerStr text) = true →
        is_chat_throttled st.chat_throttle_until msg.chat.id now = false →
        in_signal_window now = true →
        Map.get? st.last_signal_by_user u.id = some t →
        now < t + COOLDOWN →
        text_handler st upd now rnd = (st, [Reply.cooldown]))
    ∧ ((∀ stype odds tm,
          Reply.signal stype odds tm ∉ (text_handler st upd now rnd).2) →
        (text_handler st upd now rnd).1 = st)
    ∧ (∀ msg u stype odds tm, upd.message = some msg → msg.from_user = some u →
        Reply.signal stype odds tm ∈ (text_handler st upd now rnd).2 →
        Map.get? (text_handler st upd now rnd).1.last_signal_by_user u.id
          = some now) := by
  refine ⟨?_, ?_, ?_⟩
  · intro msg u text t h1 h2 h3 h4 h5 h6 h7 h8 h9
    simp [text_handler, h1, h2, h3, h4, h5, h6, h7, h8, h9]
  · intro hno
    rcases handler_shape st upd now rnd with hs | ⟨hs, _⟩ | hs |
        ⟨msg, u, text, _, _, _, _, _, _, _, hs⟩
    · rw [hs]
    · rw [hs]
    · rw [hs]
    · exfalso
      exact hno _ _ _ (by rw [hs, (sendSignal_fields st u.id msg.chat.id now rnd).2.2.2.2]; exact List.mem_singleton.mpr rfl)
  · intro msg u stype odds tm h1 h2 hmem
    rcases handler_shape st upd now rnd with hs | ⟨hs, _⟩ | hs |
        ⟨msg', u', text', hm1, hm2, hm3, _, _, _, _, hs⟩
    · rw [hs] at hmem; simp at hmem
    · rw [hs] at hmem; simp at hmem
    · rw [hs] at hmem; simp at hmem
    · have hmsg : msg' = msg := by rw [h1] at hm1; exact (Option.some_inj.mp hm1).symm
      have hu : u' = u := by
        rw [hmsg, h2] at hm3; exact (Option.some_inj.mp hm3).symm
      rw [hs, (sendSignal_fields st u'.id msg'.chat.id now rnd).1, hu,
        Map.get?_insert, if_pos rfl]

theorem C2_user_cooldown_witness :
    text_handler stC2 updW 25260 rndW = (stC2, [Reply.cooldown]) :=
  (C2_user_cooldown stC2 updW 25260 rndW).1 msgW ⟨1, false⟩ sigWord 25200
    rfl rfl rfl rfl (by decide) rfl (by decide) rfl (by decide)

end Bot

namespace Bot

/-- C3: `register_chat_signal` leaves only timestamps inside the 30-second
window for the chat, and whenever strictly more than `CHAT_SIGNAL_LIMIT = 6`
remain it sets the chat's throttle to `now + 60`; and `text_handler` on a
trigger message in a chat throttled past `now` sends no reply and changes no
state. -/
theorem C3_burst_throttle :
    (∀ (ts : Map ℤ (List ℤ)) (thr : Map ℤ ℤ) (chat now : ℤ),
      (∀ t ∈ (Map.get? (register_chat_signal ts thr chat now).1 chat).getD [],
        now - CHAT_SIGNAL_WINDOW_SEC < t)
      ∧ (((Map.get? (register_chat_signal ts thr chat now).1 chat).getD []).length
            > CHAT_SIGNAL_LIMIT →
          Map.get? (register_chat_signal ts thr chat now).2 chat
            = some (now + CHAT_THROTTLE_DURATION)))
    ∧ (∀ (st : BotState) (upd : Update) (now : ℤ) (rnd : Rand) msg u text til,
        upd.message = some msg → msg.text = some text →
        msg.from_user = some u → u.is_bot = false →
        containsSub sigWord (lowerStr text) = true →
        Map.get? st.chat_throttle_until msg.chat.id = some til → now < til →
        text_handler st upd now rnd = (st, [])) := by
  constructor
  · exact register_chat_signal_spec
  · intro st upd now rnd msg u text til h1 h2 h3 h4 h5 h6 h7
    have hth : is_chat_throttled st.chat_throttle_until msg.chat.id now = true := by
      simp [is_chat_throttled, h6, h7]
    simp [text_handler, h1, h2, h3, h4, h5, hth]

theorem C3_burst_throttle_witness :
    Map.get? (register_chat_signal tsC3 [] 10 101).2 10 = some 161
    ∧ text_handler stC3 updW 25200 rndW = (stC3, []) :=
  ⟨(C3_burst_throttle.1 tsC3 [] 10 101).2 (by decide),
   C3_burst_throttle.2 stC3 updW 25200 rndW msgW ⟨1, false⟩ sigWord 25300
     rfl rfl rfl rfl (by decide) rfl (by decide)⟩

/-- C4 counterexample: a handler invocation at `now = 36000` that sends a
signal to user 1 leaves user 2's entry (timestamp `0`, far older than the
5-minute cooldown) in `last_signal_by_user`, so the maps are not pruned by
elapsed time after every invocation. -/
theorem C4_counterexample :
    Map.get? (text_handler stC4 updW 36000 rndW).1.last_signal_by_user 2
      = some 0
    ∧ (0 : ℤ) + COOLDOWN < 36000 := by
  constructor
  · rfl
  · decide

/-- C4 (amended): only the recent-timestamp list of the chat in which a
signal was just sent is pruned: after an invocation that sends a signal, that
chat's list holds only timestamps within the 30-second window; the per-user
last-use map and the throttle-until map are never pruned — stale entries
remain and are instead ignored at lookup. -/
theorem C4_pruning (st : BotState) (upd : Update) (now : ℤ) (rnd : Rand) :
    ∀ msg, upd.message = some msg →
    ∀ stype odds tm,
      Reply.signal stype odds tm ∈ (text_handler st upd now rnd).2 →
    ∀ t ∈ (Map.get? (text_handler st upd now rnd).1.chat_signal_timestamps
        msg.chat.id).getD [],
      now - CHAT_SIGNAL_WINDOW_SEC < t := by
  intro msg h1 stype odds tm hmem t ht
  rcases handler_shape st upd now rnd with hs | ⟨hs, _⟩ | hs |
      ⟨msg', u', text', hm1, _, _, _, _, _, _, hs⟩
  · rw [hs] at hmem; simp at hmem
  · rw [hs] at hmem; simp at hmem
  · rw [hs] at hmem; simp at hmem
  · have hmsg : msg' = msg := by rw [h1] at hm1; exact (Option.some_inj.mp hm1).symm
    rw [hs, (sendSignal_fields st u'.id msg'.chat.id now rnd).2.2.1, hmsg] at ht
    exact (register_chat_signal_spec st.chat_signal_timestamps
      st.chat_throttle_until msg.chat.id now).1 t ht

theorem handler_signal_eval :
    (text_handler initialState updW 25200 rndW).2
      = [Reply.signal "BUY" (generate_odds rndW.oddsCoin rndW.oddsU)
          (human_like_time 25200 rndW.timeCoin rndW.timePick)] := rfl

theorem C4_pruning_witness :
    (25200 : ℤ) - CHAT_SIGNAL_WINDOW_SEC < 25200 :=
  C4_pruning initialState updW 25200 rndW msgW rfl "BUY"
    (generate_odds rndW.oddsCoin rndW.oddsU)
    (human_like_time 25200 rndW.timeCoin rndW.timePick)
    (by rw [handler_signal_eval]; exact List.mem_singleton.mpr rfl)
    25200 (by decide)

end Bot

namespace Bot

/-- C5 counterexample: handling a trigger message writes
`last_signal_type_by_chat` — a fourth mutable map beyond the three named in
the spec — so the state does not consist of exactly those three maps. -/
theorem C5_counterexample :
    (text_handler initialState updW 25200 rndW).1.last_signal_type_by_chat
      ≠ initialState.last_signal_type_by_chat := by
  decide

/-- C5 (amended): the mutable state consists of exactly the four maps of
`BotState` (the three named in the spec plus the per-chat last-signal-type
map), and handling a message touches only the sending user's key in the
per-user map and the message's chat key in the three per-chat maps. -/
theorem C5_frame (st : BotState) (upd : Update) (now : ℤ) (rnd : Rand) :
    (upd.message = none → (text_handler st upd now rnd).1 = st)
    ∧ (∀ msg u, upd.message = some msg → msg.from_user = some u →
      (∀ uid, uid ≠ u.id →
        Map.get? (text_handler st upd now rnd).1.last_signal_by_user uid
          = Map.get? st.last_signal_by_user uid)
      ∧ (∀ cid, cid ≠ msg.chat.id →
        Map.get? (text_handler st upd now rnd).1.last_signal_type_by_chat cid
          = Map.get? st.last_signal_type_by_chat cid
        ∧ Map.get? (text_handler st upd now rnd).1.chat_signal_timestamps cid
          = Map.get? st.chat_signal_timestamps cid
        ∧ Map.get? (text_handler st upd now rnd).1.chat_throttle_until cid
          = Map.get? st.chat_throttle_until cid)) := by
  constructor
  · intro h; simp [text_handler, h]
  · intro msg u h1 h2
    rcases handler_shape st upd now rnd with hs | ⟨hs, _⟩ | hs |
        ⟨msg', u', text', hm1, _, hm3, _, _, _, _, hs⟩
    · rw [hs]; exact ⟨fun _ _ => rfl, fun _ _ => ⟨rfl, rfl, rfl⟩⟩
    · rw [hs]; exact ⟨fun _ _ => rfl, fun _ _ => ⟨rfl, rfl, rfl⟩⟩
    · rw [hs]; exact ⟨fun _ _ => rfl, fun _ _ => ⟨rfl, rfl, rfl⟩⟩
    · have hmsg : msg' = msg := by rw [h1] at hm1; exact (Option.some_inj.mp hm1).symm
      have hu : u' = u := by rw [hmsg, h2] at hm3; exact (Option.some_inj.mp hm3).symm
      rw [hmsg, hu] at hs
      constructor
      · intro uid hne
        rw [hs, (sendSignal_fields st u.id msg.chat.id now rnd).1, Map.get?_insert,
          if_neg (fun hh => hne hh.symm)]
      · intro cid hne
        refine ⟨?_, ?_, ?_⟩
        · rw [hs, (sendSignal_fields st u.id msg.chat.id now rnd).2.1]
          exact choose_signal_type_frame _ _ _ _ _ _ hne
        · rw [hs, (sendSignal_fields st u.id msg.chat.id now rnd).2.2.1]
          exact (register_chat_signal_frame _ _ _ _ _ hne).1
        · rw [hs, (sendSignal_fields st u.id msg.chat.id now rnd).2.2.2.1]
          exact (register_chat_signal_frame _ _ _ _ _ hne).2

theorem C5_frame_witness :
    Map.get? (text_handler initialState updW 25200 rndW).1.last_signal_by_user 2
      = Map.get? initialState.last_signal_by_user 2 :=
  ((C5_frame initialState updW 25200 rndW).2 msgW ⟨1, false⟩ rfl rfl).1 2
    (by decide)

/-- C6: startup fails exactly when the BOT_TOKEN value is absent or empty;
every other handled condition is normal control flow — the handler always
returns one of the four normal outcomes (no reply, the outside-window reply,
the cooldown reply, or a single signal reply). -/
theorem C6_startup_failure :
    main_check none = Except.error tokenErrMsg
    ∧ main_check (some "") = Except.error tokenErrMsg
    ∧ (∀ t : String, t ≠ "" → main_check (some t) = Except.ok ())
    ∧ (∀ (st : BotState) (upd : Update) (now : ℤ) (rnd : Rand),
        (text_handler st upd now rnd).2 = []
        ∨ (text_handler st upd now rnd).2 = [Reply.outsideWindow]
        ∨ (text_handler st upd now rnd).2 = [Reply.cooldown]
        ∨ ∃ stype odds tm,
            (text_handler st upd now rnd).2 = [Reply.signal stype odds tm]) := by
  refine ⟨rfl, rfl, ?_, ?_⟩
  · intro t ht
    simp [main_check, tokenMissing, ht]
  · intro st upd now rnd
    rcases handler_shape st upd now rnd with hs | ⟨hs, _⟩ | hs |
        ⟨msg, u, text, _, _, _, _, _, _, _, hs⟩
    · left; rw [hs]
    · right; left; rw [hs]
    · right; right; left; rw [hs]
    · right; right; right
      exact ⟨_, _, _,
        by rw [hs, (sendSignal_fields st u.id msg.chat.id now rnd).2.2.2.2]⟩

theorem C6_startup_failure_witness :
    main_check (some "x") = Except.ok () :=
  C6_startup_failure.2.2.1 "x" (by decide)

/-- C7: a text message not matching the case-insensitive keyword "signal"
(as the registered `\bsignal\b` filter tests) yields no reply and no state
change, and a signal reply can only arise for a message matching the keyword
(and hence containing the substring the handler re-checks). -/
theorem C7_keyword_gate :
    (∀ (st : BotState) (upd : Update) (now : ℤ) (rnd : Rand) msg text,
      upd.message = some msg → msg.text = some text →
      containsSignalWord text = false →
      dispatch st upd now rnd = (st, []))
    ∧ (∀ (st : BotState) (upd : Update) (now : ℤ) (rnd : Rand)
        msg text stype odds tm,
      upd.message = some msg → msg.text = some text →
      Reply.signal stype odds tm ∈ (dispatch st upd now rnd).2 →
      containsSignalWord text = true
        ∧ containsSub sigWord (lowerStr text) = true) := by
  constructor
  · intro st upd now rnd msg text h1 h2 h3
    simp [dispatch, h1, h2, h3]
  · intro st upd now rnd msg text stype odds tm h1 h2 hmem
    by_cases hw : containsSignalWord text = true
    · refine ⟨hw, ?_⟩
      have hd : dispatch st upd now rnd = text_handler st upd now rnd := by
        simp [dispatch, h1, h2, hw]
      rw [hd] at hmem
      rcases handler_shape st upd now rnd with hs | ⟨hs, _⟩ | hs |
          ⟨msg', u', text', hm1, hm2, _, _, hc, _, _, hs⟩
      · rw [hs] at hmem; simp at hmem
      · rw [hs] at hmem; simp at hmem
      · rw [hs] at hmem; simp at hmem
      · have hmsg : msg' = msg := by
          rw [h1] at hm1; exact (Option.some_inj.mp hm1).symm
        have ht : text' = text := by
          rw [hmsg, h2] at hm2; exact (Option.some_inj.mp hm2).symm
        rwa [ht] at hc
    · exfalso
      have hz : dispatch st upd now rnd = (st, []) := by
        simp [dispatch, h1, h2, hw]
      rw [hz] at hmem; simp at hmem

theorem C7_keyword_gate_witness :
    dispatch initialState updNoKey 25200 rndW = (initialState, []) :=
  C7_keyword_gate.1 initialState updNoKey 25200 rndW msgNoKey ['h', 'i']
    rfl rfl (by decide)

end Bot

namespace Bot

/-- C8: for every outcome of the draws, `generate_odds` returns a multiple of
1/100 lying in [1.80, 2.15] or in [2.20, 2.30]. -/
theorem C8_odds_range (coin u : ℚ) (h0 : 0 ≤ u) (h1 : u ≤ 1) :
    (∃ n : ℤ, generate_odds coin u = (n : ℚ) / 100)
    ∧ (((180 : ℚ) / 100 ≤ generate_odds coin u
          ∧ generate_odds coin u ≤ (215 : ℚ) / 100)
        ∨ ((220 : ℚ) / 100 ≤ generate_odds coin u
          ∧ generate_odds coin u ≤ (230 : ℚ) / 100)) := by
  by_cases hc : coin < 20 / 100
  · have hg : generate_odds coin u = round2 (uniform (220 / 100) (230 / 100) u) := by
      simp [generate_odds, hc]
    have hlo : ((220 : ℤ) : ℚ) / 100 ≤ uniform (220 / 100) (230 / 100) u := by
      unfold uniform; push_cast; nlinarith
    have hhi : uniform (220 / 100) (230 / 100) u ≤ ((230 : ℤ) : ℚ) / 100 := by
      unfold uniform; push_cast; nlinarith
    obtain ⟨b1, b2⟩ := round2_bounds 220 230 hlo hhi
    refine ⟨⟨round (100 * uniform (220 / 100) (230 / 100) u), by rw [hg]; rfl⟩,
      Or.inr ⟨?_, ?_⟩⟩
    · rw [hg]; exact le_trans (by push_cast; norm_num) b1
    · rw [hg]; exact le_trans b2 (by push_cast; norm_num)
  · have hg : generate_odds coin u = round2 (uniform (180 / 100) (215 / 100) u) := by
      simp [generate_odds, hc]
    have hlo : ((180 : ℤ) : ℚ) / 100 ≤ uniform (180 / 100) (215 / 100) u := by
      unfold uniform; push_cast; nlinarith
    have hhi : uniform (180 / 100) (215 / 100) u ≤ ((215 : ℤ) : ℚ) / 100 := by
      unfold uniform; push_cast; nlinarith
    obtain ⟨b1, b2⟩ := round2_bounds 180 215 hlo hhi
    refine ⟨⟨round (100 * uniform (180 / 100) (215 / 100) u), by rw [hg]; rfl⟩,
      Or.inl ⟨?_, ?_⟩⟩
    · rw [hg]; exact le_trans (by push_cast; norm_num) b1
    · rw [hg]; exact le_trans b2 (by push_cast; norm_num)

theorem C8_odds_range_witness :
    ((180 : ℚ) / 100 ≤ generate_odds 1 (1 / 2)
        ∧ generate_odds 1 (1 / 2) ≤ (215 : ℚ) / 100)
    ∨ ((220 : ℚ) / 100 ≤ generate_odds 1 (1 / 2)
        ∧ generate_odds 1 (1 / 2) ≤ (230 : ℚ) / 100) :=
  (C8_odds_range 1 (1 / 2) (by norm_num) (by norm_num)).2

/-- C9: updates with no message, messages with no text, messages with an
unknown sender, and messages from bots are all ignored: no reply is sent and
no state map is modified. -/
theorem C9_ignored_updates (st : BotState) (upd : Update) (now : ℤ)
    (rnd : Rand) :
    (upd.message = none → text_handler st upd now rnd = (st, []))
    ∧ (∀ msg, upd.message = some msg → msg.text = none →
        text_handler st upd now rnd = (st, []))
    ∧ (∀ msg text, upd.message = some msg → msg.text = some text →
        msg.from_user = none → text_handler st upd now rnd = (st, []))
    ∧ (∀ msg u, upd.message = some msg → msg.from_user = some u →
        u.is_bot = true → text_handler st upd now rnd = (st, [])) := by
  refine ⟨?_, ?_, ?_, ?_⟩
  · intro h; simp [text_handler, h]
  · intro msg h1 h2; simp [text_handler, h1, h2]
  · intro msg text h1 h2 h3; simp [text_handler, h1, h2, h3]
  · intro msg u h1 h2 h3
    cases htext : msg.text with
    | none => simp [text_handler, h1, htext]
    | some text => simp [text_handler, h1, htext, h2, h3]

theorem C9_ignored_updates_witness :
    text_handler initialState ⟨none⟩ 0 rndW = (initialState, []) :=
  (C9_ignored_updates initialState ⟨none⟩ 0 rndW).1 rfl

end Bot

namespace Bot

/-- Every value stored in a `last_signal_type_by_chat` map is BUY or SELL. -/
def typesOK (m : Map ℤ String) : Prop :=
  ∀ c v, Map.get? m c = some v → v = "BUY" ∨ v = "SELL"

/-- Folding `text_handler` over a list of inbound events
(update, arrival time, random draws). -/
def runEvents (st : BotState) : List (Update × ℤ × Rand) → BotState
  | [] => st
  | e :: rest => runEvents (text_handler st e.1 e.2.1 e.2.2).1 rest

theorem choose_signal_type_buy_or_sell (m : Map ℤ String) (chat : ℤ)
    (coin : ℚ) (cA cB : Bool) :
    ((choose_signal_type m chat coin cA cB).1 = "BUY"
      ∨ (choose_signal_type m chat coin cA cB).1 = "SELL")
    ∧ Map.get? (choose_signal_type m chat coin cA cB).2 chat
        = some (choose_signal_type m chat coin cA cB).1 := by
  constructor
  · simp only [choose_signal_type]
    split_ifs <;> simp
  · simp [choose_signal_type, Map.get?_insert]

theorem typesOK_choose (m : Map ℤ String) (chat : ℤ) (coin : ℚ)
    (cA cB : Bool) (h : typesOK m) :
    typesOK (choose_signal_type m chat coin cA cB).2 := by
  intro c v hv
  rw [show (choose_signal_type m chat coin cA cB).2
      = Map.insert m chat (choose_signal_type m chat coin cA cB).1 from rfl,
    Map.get?_insert] at hv
  by_cases hc : chat = c
  · rw [if_pos hc] at hv
    rw [← Option.some_inj.mp hv]
    exact (choose_signal_type_buy_or_sell m chat coin cA cB).1
  · rw [if_neg hc] at hv
    exact h c v hv

theorem typesOK_handler (st : BotState) (upd : Update) (now : ℤ) (rnd : Rand)
    (h : typesOK st.last_signal_type_by_chat) :
    typesOK (text_handler st upd now rnd).1.last_signal_type_by_chat := by
  rcases handler_shape st upd now rnd with hs | ⟨hs, _⟩ | hs |
      ⟨msg, u, text, _, _, _, _, _, _, _, hs⟩
  · rw [hs]; exact h
  · rw [hs]; exact h
  · rw [hs]; exact h
  · rw [hs, (sendSignal_fields st u.id msg.chat.id now rnd).2.1]
    exact typesOK_choose _ _ _ _ _ h

theorem typesOK_runEvents :
    ∀ (evs : List (Update × ℤ × Rand)) (st : BotState),
      typesOK st.last_signal_type_by_chat →
      typesOK (runEvents st evs).last_signal_type_by_chat
  | [], _, h => h
  | e :: rest, st, h =>
    typesOK_runEvents rest _ (typesOK_handler st e.1 e.2.1 e.2.2 h)

/-- C10: `choose_signal_type` always returns "BUY" or "SELL" and records the
returned value for the chat, so after any sequence of handled events every
value in `last_signal_type_by_chat` is "BUY" or "SELL". -/
theorem C10_signal_types (m : Map ℤ String) (chat : ℤ) (coin : ℚ)
    (cA cB : Bool) :
    ((choose_signal_type m chat coin cA cB).1 = "BUY"
      ∨ (choose_signal_type m chat coin cA cB).1 = "SELL")
    ∧ Map.get? (choose_signal_type m chat coin cA cB).2 chat
        = some (choose_signal_type m chat coin cA cB).1
    ∧ ∀ evs : List (Update × ℤ × Rand),
        typesOK (runEvents initialState evs).last_signal_type_by_chat := by
  refine ⟨(choose_signal_type_buy_or_sell m chat coin cA cB).1,
    (choose_signal_type_buy_or_sell m chat coin cA cB).2, ?_⟩
  intro evs
  exact typesOK_runEvents evs initialState (fun c v hv => by
    simp [initialState, Map.get?] at hv)

theorem C10_signal_types_witness :
    (choose_signal_type [] 10 0 true true).1 = "BUY"
    ∨ (choose_signal_type [] 10 0 true true).1 = "SELL" :=
  (C10_signal_types [] 10 0 true true).1

end Bot
